import Mathlib

/-!
# Verification of the MyCrypto validation utilities

Shallow embedding of the stateless validation module
(`src/unnamed/part_002` of the repository): Ethereum-like address
validation, transaction-fee classification (`validateTxFee`) and
JSON-RPC response validation, together with theorems settling the
specification claims about them.

External library functions (`toChecksumAddress` from `ethereumjs-util`,
`isValidChecksumAddress` from `rskjs-util`) are taken as parameters:
the theorems quantify over them, so they hold for every possible
behaviour of those libraries.
-/

set_option autoImplicit false

namespace MyCrypto

/-! ## Address validation (part_002, lines 37-152) -/

/-- JS regex character class `[0-9]`. -/
def isDigitChar (c : Char) : Bool := '0' ≤ c && c ≤ '9'

/-- JS regex character class `[a-fA-F0-9]`. -/
def isHexDigit (c : Char) : Bool :=
  isDigitChar c || ('a' ≤ c && c ≤ 'f') || ('A' ≤ c && c ≤ 'F')

/-- JS regex character class `[a-f0-9]`. -/
def isLowerHexDigit (c : Char) : Bool := isDigitChar c || ('a' ≤ c && c ≤ 'f')

/-- JS regex character class `[A-F0-9]`. -/
def isUpperHexDigit (c : Char) : Bool := isDigitChar c || ('A' ≤ c && c ≤ 'F')

/-- `isValidMixedCaseETHAddress` (line 138): tests
`/^(0(x|X)[a-fA-F0-9]{40})$/`. -/
def isValidMixedCaseETHAddress (address : String) : Bool :=
  match address.data with
  | c :: x :: rest =>
      c == '0' && (x == 'x' || x == 'X') && rest.length == 40 && rest.all isHexDigit
  | _ => false

/-- `isValidUpperOrLowerCaseETHAddress` (line 142): tests
`/^(0(x|X)(([a-f0-9]{40})|([A-F0-9]{40})))$/`. -/
def isValidUpperOrLowerCaseETHAddress (address : String) : Bool :=
  match address.data with
  | c :: x :: rest =>
      c == '0' && (x == 'x' || x == 'X') && rest.length == 40 &&
        (rest.all isLowerHexDigit || rest.all isUpperHexDigit)
  | _ => false

/-- The prefix test `['0x', '0X'].includes(address.substring(0, 2))`
(line 62). -/
def hexPrefixOk (address : String) : Bool :=
  match address.data with
  | c :: x :: _ => c == '0' && (x == 'x' || x == 'X')
  | _ => false

/-- `isValidETHLikeAddress` (lines 59-79), with the same cascade of
branches as the source. -/
def isValidETHLikeAddress (address : String) (isChecksumValid : Bool) : Bool :=
  let isValidMixedCase := isValidMixedCaseETHAddress address
  let isValidUpperOrLowerCase := isValidUpperOrLowerCaseETHAddress address
  if !(hexPrefixOk address) then
    false
  else if isValidMixedCase && !isValidUpperOrLowerCase && !isChecksumValid then
    false
  else if isValidMixedCase && !isValidUpperOrLowerCase && isChecksumValid then
    true
  else if isValidUpperOrLowerCase && !isValidMixedCase then
    true
  else if !isValidUpperOrLowerCase && !isValidMixedCase then
    false
  else
    true

/-- `isChecksumAddress` (line 37): `address === toChecksumAddress(address)`,
parametrised by the external `toChecksumAddress` of `ethereumjs-util`. -/
def isChecksumAddress (toChecksum : String → String) (address : String) : Bool :=
  address == toChecksum address

/-- `isValidETHAddress` (line 150). -/
def isValidETHAddress (toChecksum : String → String) (address : String) : Bool :=
  isValidETHLikeAddress address (isChecksumAddress toChecksum address)

/-- `isValidRSKAddress` (line 48), parametrised by the external
`isValidChecksumAddress` of `rskjs-util` (`rskChecksum`). -/
def isValidRSKAddress (rskChecksum : String → Nat → Bool)
    (address : String) (chainId : Nat) : Bool :=
  isValidETHLikeAddress address (rskChecksum address chainId)

/-- `getIsValidAddressFunction` (lines 52-57). -/
def getIsValidAddressFunction (toChecksum : String → String)
    (rskChecksum : String → Nat → Bool) (chainId : Nat) : String → Bool :=
  if chainId = 30 ∨ chainId = 31 then
    fun address => isValidRSKAddress rskChecksum address chainId
  else
    isValidETHAddress toChecksum

/-- `isValidAddress` (line 146). -/
def isValidAddress (toChecksum : String → String)
    (rskChecksum : String → Nat → Bool) (address : String) (chainId : Nat) : Bool :=
  getIsValidAddressFunction toChecksum rskChecksum chainId address

/-! ### Helper lemmas about the address predicates -/

/-- A string matching the mixed-case regex starts with `0x` or `0X`. -/
theorem hexPrefixOk_of_mixed {address : String}
    (h : isValidMixedCaseETHAddress address = true) : hexPrefixOk address = true := by
  unfold isValidMixedCaseETHAddress at h
  unfold hexPrefixOk
  rcases hd : address.data with _ | ⟨c, _ | ⟨x, rest⟩⟩ <;> rw [hd] at h <;>
    simp_all [Bool.and_eq_true]

/-- The uniform-case regex implies the mixed-case regex. -/
theorem mixed_of_upperOrLower {address : String}
    (h : isValidUpperOrLowerCaseETHAddress address = true) :
    isValidMixedCaseETHAddress address = true := by
  unfold isValidUpperOrLowerCaseETHAddress at h
  unfold isValidMixedCaseETHAddress
  rcases hd : address.data with _ | ⟨c, _ | ⟨x, rest⟩⟩ <;> rw [hd] at h <;>
    simp_all [Bool.and_eq_true]
  rcases h.2 with hall | hall <;>
    · intro c hc
      have := hall c hc
      simp only [isLowerHexDigit, isUpperHexDigit, isHexDigit, Bool.or_eq_true,
        Bool.and_eq_true] at this ⊢
      tauto

/-! ## Transaction-fee classification (part_002, lines 191-298)

Numeric values are modelled as rationals: the source works on decimal
strings scaled to integer base units by BigNumber arithmetic, and all
scaled values appearing here are integral, so rational arithmetic agrees
with it exactly. -/

/-- JS `split(sep)` for a single-character separator: splits a character
list on every occurrence of `sep`, keeping empty segments
(`''.split(s) = ['']`). -/
def splitChar (sep : Char) : List Char → List (List Char)
  | [] => [[]]
  | c :: cs =>
    match splitChar sep cs with
    | [] => [[]]
    | h :: t => if c = sep then [] :: h :: t else (c :: h) :: t

/-- Modelled from the spec: `DEFAULT_ASSET_DECIMAL` comes from `@config`
(not under `src/`); it is the standard Ethereum asset decimal count, 18. -/
def DEFAULT_ASSET_DECIMAL : Nat := 18

/-- `DEFAULT_RATE_DECIMAL = 4` (line 221). -/
def DEFAULT_RATE_DECIMAL : Nat := 4

/-- `DEFAULT_DECIMAL = DEFAULT_ASSET_DECIMAL + DEFAULT_RATE_DECIMAL`
(line 222). -/
def DEFAULT_DECIMAL : Nat := DEFAULT_ASSET_DECIMAL + DEFAULT_RATE_DECIMAL

/-- Modelled from the spec: `convertedToBaseUnit` from `@utils` (not under
`src/`) converts a decimal amount into base units, i.e. multiplies by
`10 ^ decimal`. -/
def convertedToBaseUnit (value : ℚ) (decimal : Nat) : ℚ := value * 10 ^ decimal

/-- Modelled from the spec: `gasStringsToMaxGasBN` from `@utils` (not
under `src/`) computes the maximum gas cost in wei from a gas price in
gwei and a gas limit: price, scaled gwei to wei, times limit. -/
def gasStringsToMaxGasBN (gasPrice gasLimit : ℚ) : ℚ := gasPrice * 10 ^ 9 * gasLimit

/-- Numeric value of a list of decimal digit characters. -/
def digitsToNat (l : List Char) : Nat :=
  l.foldl (fun acc c => 10 * acc + (c.toNat - 48)) 0

/-- Numeric value of a decimal string of the shape accepted by
`validInputRegex` (integer part, optional fractional part). -/
def parseDecimal (s : String) : ℚ :=
  match splitChar '.' s.data with
  | [a] => (digitsToNat a : ℚ)
  | [a, b] => (digitsToNat a : ℚ) + (digitsToNat b : ℚ) / 10 ^ b.length
  | _ => 0

/-- The test of `validInputRegex = /^[0-9]+(\.[0-9])?[0-9]*$/` (line 213):
one or more digits, optionally followed by a dot and one or more digits. -/
def validInput (s : String) : Bool :=
  match splitChar '.' s.data with
  | [a] => !a.isEmpty && a.all isDigitChar
  | [a, b] => !a.isEmpty && a.all isDigitChar && !b.isEmpty && b.all isDigitChar
  | _ => false

/-- `type` of `TxFeeResponse` (lines 191-197). -/
inductive TxFeeResponseType
  | Warning
  | ErrorUseLower
  | ErrorHighTxFee
  | ErrorVeryHighTxFee
  | None
  | Invalid
deriving DecidableEq, Repr

/-- `TxFeeResponse` (lines 198-202). The source formats `amount` and
`fee` as fixed-point strings; here they are kept as the underlying
rational values (the string formatting carries no further information
used by any claim). -/
structure TxFeeResponse where
  type : TxFeeResponseType
  amount : Option ℚ := none
  fee : Option ℚ := none
deriving DecidableEq, Repr

/-- `txAmount` of `validateTxFee` (line 229). -/
def txAmountValue (amount : String) : ℚ :=
  convertedToBaseUnit (parseDecimal amount) DEFAULT_DECIMAL

/-- `txFee` of `validateTxFee` (line 230). -/
def txFeeValue (gasLimit gasPrice : String) : ℚ :=
  gasStringsToMaxGasBN (parseDecimal gasPrice) (parseDecimal gasLimit)

/-- `txFeeFiatValue` of `validateTxFee` (line 231): asset USD rate in
rate base units times the fee. -/
def txFeeFiatValue (assetRateUSD : ℚ) (gasLimit gasPrice : String) : ℚ :=
  convertedToBaseUnit assetRateUSD DEFAULT_RATE_DECIMAL * txFeeValue gasLimit gasPrice

/-- `isGreaterThanEthFraction` of `validateTxFee` (lines 254-261).
`ethAssetRate` is the optional JS number argument; the guard
`ethAssetRate && txTransactionFeeInEthFiatValue` holds exactly when the
rate is present and positive, and `getEthAssetRate` (lines 226-227) uses
`assetRateUSD`, as the source does. -/
def ethFractionReached (ethAssetRate : Option ℚ) (assetRateUSD : ℚ)
    (gasLimit gasPrice : String) (ethFraction : ℚ) : Bool :=
  match ethAssetRate with
  | some r =>
      if 0 < r then
        decide (convertedToBaseUnit assetRateUSD DEFAULT_RATE_DECIMAL *
            txFeeValue gasLimit gasPrice ≥
          convertedToBaseUnit (r * ethFraction) DEFAULT_DECIMAL)
      else false
  | none => false

/-- `createTxFeeResponse` of `validateTxFee` (lines 236-253), with the
fiat-local amount and fee kept as rationals. -/
def createTxFeeResponse (assetRateFiat : ℚ) (amount gasLimit gasPrice : String)
    (t : TxFeeResponseType) : TxFeeResponse :=
  { type := t
    amount := some (convertedToBaseUnit assetRateFiat DEFAULT_RATE_DECIMAL *
        txAmountValue amount / 10 ^ (DEFAULT_DECIMAL + DEFAULT_RATE_DECIMAL))
    fee := some (convertedToBaseUnit assetRateFiat DEFAULT_RATE_DECIMAL *
        txFeeValue gasLimit gasPrice / 10 ^ DEFAULT_DECIMAL) }

/-- `validateTxFee` (lines 204-298). -/
def validateTxFee (amount : String) (assetRateUSD assetRateFiat : ℚ)
    (isERC20 : Bool) (gasLimit gasPrice : String)
    (ethAssetRate : Option ℚ) : TxFeeResponse :=
  if !validInput amount || !validInput gasLimit || !validInput gasPrice then
    { type := .Invalid }
  else if txAmountValue amount < convertedToBaseUnit (1 / 1000000) DEFAULT_DECIMAL then
    createTxFeeResponse assetRateFiat amount gasLimit gasPrice .None
  else if txFeeFiatValue assetRateUSD gasLimit gasPrice >
        convertedToBaseUnit 100 DEFAULT_DECIMAL ∨
      ethFractionReached ethAssetRate assetRateUSD gasLimit gasPrice (1 / 2) = true then
    createTxFeeResponse assetRateFiat amount gasLimit gasPrice .ErrorVeryHighTxFee
  else if txFeeFiatValue assetRateUSD gasLimit gasPrice >
        convertedToBaseUnit 25 DEFAULT_DECIMAL ∨
      ethFractionReached ethAssetRate assetRateUSD gasLimit gasPrice (3 / 20) = true then
    createTxFeeResponse assetRateFiat amount gasLimit gasPrice .ErrorHighTxFee
  else if txFeeFiatValue assetRateUSD gasLimit gasPrice >
        convertedToBaseUnit 5 DEFAULT_DECIMAL ∨
      ethFractionReached ethAssetRate assetRateUSD gasLimit gasPrice (1 / 40) = true then
    createTxFeeResponse assetRateFiat amount gasLimit gasPrice .ErrorUseLower
  else if !isERC20 &&
      decide (txAmountValue amount <
        convertedToBaseUnit (txFeeValue gasLimit gasPrice) DEFAULT_RATE_DECIMAL) then
    createTxFeeResponse assetRateFiat amount gasLimit gasPrice .Warning
  else
    createTxFeeResponse assetRateFiat amount gasLimit gasPrice .None

/-! ### Claim theorems about address validation -/

/-- C1: for every address matching the mixed-case 40-hex-digit regex but
not the all-lower/all-upper regex, `isValidETHAddress` returns true iff
the address equals its checksummed form (for every checksum function),
and `isValidETHLikeAddress` returns exactly its checksum flag. -/
theorem mixedCase_valid_iff_checksum (address : String) (toChecksum : String → String)
    (hmix : isValidMixedCaseETHAddress address = true)
    (hnul : isValidUpperOrLowerCaseETHAddress address = false) :
    (isValidETHAddress toChecksum address = true ↔ address = toChecksum address) ∧
    (∀ b : Bool, isValidETHLikeAddress address b = b) := by
  have hpre := hexPrefixOk_of_mixed hmix
  have hlike : ∀ b : Bool, isValidETHLikeAddress address b = b := by
    intro b
    unfold isValidETHLikeAddress
    cases b <;> simp [hpre, hmix, hnul]
  refine ⟨?_, hlike⟩
  unfold isValidETHAddress
  rw [hlike]
  unfold isChecksumAddress
  exact beq_iff_eq

/-- Witness for C1 at a concrete mixed-case address and concrete checksum
functions. -/
theorem mixedCase_valid_iff_checksum_witness :
    isValidMixedCaseETHAddress "0xAb00000000000000000000000000000000000000" = true ∧
    isValidUpperOrLowerCaseETHAddress "0xAb00000000000000000000000000000000000000" = false ∧
    (isValidETHAddress (fun s => s) "0xAb00000000000000000000000000000000000000" = true ↔
      "0xAb00000000000000000000000000000000000000" =
        "0xAb00000000000000000000000000000000000000") ∧
    isValidETHLikeAddress "0xAb00000000000000000000000000000000000000" false = false :=
  ⟨by decide, by decide,
    (mixedCase_valid_iff_checksum _ (fun s => s) (by decide) (by decide)).1,
    (mixedCase_valid_iff_checksum _ (fun s => s) (by decide) (by decide)).2 false⟩

/-- C5: an address whose first two characters are not `0x`/`0X` is
rejected by `isValidETHLikeAddress` (for every checksum flag), by
`isValidETHAddress` (for every checksum function) and by `isValidAddress`
(for every chain id and both external checksum functions). -/
theorem address_no0x_invalid (address : String) (h : hexPrefixOk address = false) :
    (∀ b : Bool, isValidETHLikeAddress address b = false) ∧
    (∀ f : String → String, isValidETHAddress f address = false) ∧
    (∀ (f : String → String) (g : String → Nat → Bool) (chainId : Nat),
      isValidAddress f g address chainId = false) := by
  have hlike : ∀ b : Bool, isValidETHLikeAddress address b = false := by
    intro b
    unfold isValidETHLikeAddress
    simp [h]
  refine ⟨hlike, fun f => hlike _, fun f g chainId => ?_⟩
  unfold isValidAddress getIsValidAddressFunction
  split
  · exact hlike _
  · exact hlike _

/-- Witness for C5 at the concrete address `"hello"`. -/
theorem address_no0x_invalid_witness :
    isValidETHLikeAddress "hello" true = false ∧
    isValidETHAddress (fun s => s) "hello" = false ∧
    isValidAddress (fun s => s) (fun _ _ => true) "hello" 30 = false ∧
    isValidAddress (fun s => s) (fun _ _ => true) "hello" 1 = false :=
  ⟨(address_no0x_invalid "hello" (by decide)).1 true,
    (address_no0x_invalid "hello" (by decide)).2.1 _,
    (address_no0x_invalid "hello" (by decide)).2.2 _ _ 30,
    (address_no0x_invalid "hello" (by decide)).2.2 _ _ 1⟩

/-- C6: an address matching the all-lowercase-or-all-uppercase 40-hex
regex is accepted by `isValidETHAddress` for every checksum function
(hence regardless of whether it equals its checksummed form), and by
`isValidETHLikeAddress` for every checksum flag. -/
theorem upperOrLower_valid_regardless (address : String)
    (hul : isValidUpperOrLowerCaseETHAddress address = true) :
    (∀ f : String → String, isValidETHAddress f address = true) ∧
    (∀ b : Bool, isValidETHLikeAddress address b = true) := by
  have hmix := mixed_of_upperOrLower hul
  have hpre := hexPrefixOk_of_mixed hmix
  have hlike : ∀ b : Bool, isValidETHLikeAddress address b = true := by
    intro b
    unfold isValidETHLikeAddress
    cases b <;> simp [hpre, hmix, hul]
  exact ⟨fun f => hlike _, hlike⟩

/-- Witness for C6 at a concrete all-lowercase address, with a checksum
function under which the address does not equal its checksummed form. -/
theorem upperOrLower_valid_regardless_witness :
    isValidUpperOrLowerCaseETHAddress "0xabcdef0123456789abcdef0123456789abcdef01" = true ∧
    isValidETHAddress (fun _ => "") "0xabcdef0123456789abcdef0123456789abcdef01" = true ∧
    isValidETHLikeAddress "0xabcdef0123456789abcdef0123456789abcdef01" false = true :=
  ⟨by decide,
    (upperOrLower_valid_regardless _ (by decide)).1 _,
    (upperOrLower_valid_regardless _ (by decide)).2 false⟩

/-- C8: `isValidAddress` routes chain ids 30 and 31 to the RSK checksum
algorithm (`isValidRSKAddress`, built on the external RSK checksum
function) and every other chain id to `isValidETHAddress`. -/
theorem isValidAddress_chain_routing (toChecksum : String → String)
    (rskChecksum : String → Nat → Bool) (address : String) (chainId : Nat) :
    isValidAddress toChecksum rskChecksum address chainId =
      if chainId = 30 ∨ chainId = 31 then
        isValidRSKAddress rskChecksum address chainId
      else
        isValidETHAddress toChecksum address := by
  unfold isValidAddress getIsValidAddressFunction
  split <;> simp_all

/-! ### Claim theorems about the fee classifier -/

/-- ASCII value of the digit character `0`, for evaluating `digitsToNat`. -/
theorem digitToNat0 : ('0' : Char).toNat = 48 := rfl

/-- ASCII value of the digit character `1`. -/
theorem digitToNat1 : ('1' : Char).toNat = 49 := rfl

/-- ASCII value of the digit character `2`. -/
theorem digitToNat2 : ('2' : Char).toNat = 50 := rfl

/-- ASCII value of the digit character `5`. -/
theorem digitToNat5 : ('5' : Char).toNat = 53 := rfl

/-- C4: when the amount, gas-limit or gas-price string fails the numeric
input regex, `validateTxFee` returns the classification `Invalid` with no
amount and no fee. -/
theorem validateTxFee_invalid_input (amount : String) (assetRateUSD assetRateFiat : ℚ)
    (isERC20 : Bool) (gasLimit gasPrice : String) (ethAssetRate : Option ℚ)
    (h : validInput amount = false ∨ validInput gasLimit = false ∨
      validInput gasPrice = false) :
    validateTxFee amount assetRateUSD assetRateFiat isERC20 gasLimit gasPrice ethAssetRate =
      { type := TxFeeResponseType.Invalid, amount := none, fee := none } := by
  unfold validateTxFee
  rcases h with h | h | h <;> simp [h]

/-- Witness for C4 at the malformed amount string `"abc"`. -/
theorem validateTxFee_invalid_input_witness :
    validateTxFee "abc" 1 1 false "21000" "10" none =
      { type := TxFeeResponseType.Invalid, amount := none, fee := none } :=
  validateTxFee_invalid_input "abc" 1 1 false "21000" "10" none (Or.inl (by decide))

/-- C7: with amount `"0.0000001"` and well-formed gas limit and gas price
strings, `validateTxFee` returns the classification `None`, for every
choice of the remaining arguments. -/
theorem validateTxFee_tinyAmount_none (assetRateUSD assetRateFiat : ℚ)
    (isERC20 : Bool) (gasLimit gasPrice : String) (ethAssetRate : Option ℚ)
    (hgl : validInput gasLimit = true) (hgp : validInput gasPrice = true) :
    (validateTxFee "0.0000001" assetRateUSD assetRateFiat isERC20 gasLimit gasPrice
      ethAssetRate).type = TxFeeResponseType.None := by
  have hA : validInput "0.0000001" = true := by decide
  unfold validateTxFee
  rw [hA, hgl, hgp]
  norm_num +decide [txAmountValue, convertedToBaseUnit, parseDecimal, splitChar, digitsToNat,
    DEFAULT_DECIMAL, DEFAULT_ASSET_DECIMAL, DEFAULT_RATE_DECIMAL, createTxFeeResponse,
    digitToNat0, digitToNat1]

/-- Witness for C7 at concrete gas strings. -/
theorem validateTxFee_tinyAmount_none_witness :
    (validateTxFee "0.0000001" 1000 1 false "21000" "1000000" none).type =
      TxFeeResponseType.None :=
  validateTxFee_tinyAmount_none 1000 1 false "21000" "1000000" none
    (by decide) (by decide)

/-- C2 counterexample: a call with well-formed numeric strings whose fee
fiat value exceeds the $100 threshold, yet whose classification is `None`
(the tiny-amount branch runs first), refuting the claim as stated. -/
theorem validateTxFee_bigFee_counterexample :
    (validInput "0" && validInput "21000" && validInput "1000000") = true ∧
    txFeeFiatValue 1000 "21000" "1000000" > convertedToBaseUnit 100 DEFAULT_DECIMAL ∧
    (validateTxFee "0" 1000 1 false "21000" "1000000" none).type =
      TxFeeResponseType.None ∧
    (validateTxFee "0" 1000 1 false "21000" "1000000" none).type ≠
      TxFeeResponseType.ErrorVeryHighTxFee := by
  refine ⟨by decide, ?_, ?_, ?_⟩ <;>
    · norm_num +decide [validateTxFee, validInput, isDigitChar, txFeeFiatValue, txFeeValue,
        gasStringsToMaxGasBN, txAmountValue, convertedToBaseUnit, parseDecimal, splitChar,
        digitsToNat, createTxFeeResponse, ethFractionReached, DEFAULT_DECIMAL,
        DEFAULT_ASSET_DECIMAL, DEFAULT_RATE_DECIMAL, digitToNat0, digitToNat1, digitToNat2]

/-- C2 (amended): with well-formed numeric strings, when the amount is at
least `0.000001` (so the tiny-amount branch is not taken), a fee fiat
value above the $100 threshold or a fee reaching the 0.5 ETH-fraction
comparison yields the classification `Error-Very-High-Tx-Fee`. -/
theorem validateTxFee_veryHigh_amended (amount : String) (assetRateUSD assetRateFiat : ℚ)
    (isERC20 : Bool) (gasLimit gasPrice : String) (ethAssetRate : Option ℚ)
    (ha : validInput amount = true) (hgl : validInput gasLimit = true)
    (hgp : validInput gasPrice = true)
    (hamt : ¬ txAmountValue amount < convertedToBaseUnit (1 / 1000000) DEFAULT_DECIMAL)
    (hfee : txFeeFiatValue assetRateUSD gasLimit gasPrice >
        convertedToBaseUnit 100 DEFAULT_DECIMAL ∨
      ethFractionReached ethAssetRate assetRateUSD gasLimit gasPrice (1 / 2) = true) :
    (validateTxFee amount assetRateUSD assetRateFiat isERC20 gasLimit gasPrice
      ethAssetRate).type = TxFeeResponseType.ErrorVeryHighTxFee := by
  unfold validateTxFee
  rw [ha, hgl, hgp]
  rw [show ((!true || !true || !true)) = false from rfl]
  rw [if_neg Bool.false_ne_true]
  rw [if_neg hamt]
  rw [if_pos hfee]
  rfl

/-- Witness for the amended C2 at a concrete large-fee call. -/
theorem validateTxFee_veryHigh_amended_witness :
    (validateTxFee "1" 1000 1 false "21000" "1000000" none).type =
      TxFeeResponseType.ErrorVeryHighTxFee :=
  validateTxFee_veryHigh_amended "1" 1000 1 false "21000" "1000000" none
    (by decide) (by decide) (by decide)
    (by norm_num +decide [txAmountValue, convertedToBaseUnit, parseDecimal, splitChar,
      digitsToNat, DEFAULT_DECIMAL, DEFAULT_ASSET_DECIMAL, DEFAULT_RATE_DECIMAL, digitToNat1])
    (Or.inl (by norm_num +decide [txFeeFiatValue, txFeeValue, gasStringsToMaxGasBN,
      convertedToBaseUnit, parseDecimal, splitChar, digitsToNat, DEFAULT_DECIMAL,
      DEFAULT_ASSET_DECIMAL, DEFAULT_RATE_DECIMAL, digitToNat0, digitToNat1, digitToNat2]))

/-- C10: with the ERC-20 flag set, `validateTxFee` never returns the
classification `Warning`: the fee-exceeds-amount branch requires the flag
to be false. -/
theorem validateTxFee_erc20_noWarning (amount : String) (assetRateUSD assetRateFiat : ℚ)
    (gasLimit gasPrice : String) (ethAssetRate : Option ℚ) :
    (validateTxFee amount assetRateUSD assetRateFiat true gasLimit gasPrice
      ethAssetRate).type ≠ TxFeeResponseType.Warning := by
  unfold validateTxFee
  repeat' split
  all_goals simp_all [createTxFeeResponse]

/-- Witness for C10 at a concrete ERC-20 call. -/
theorem validateTxFee_erc20_noWarning_witness :
    (validateTxFee "1" 1 1 true "21000" "10" none).type ≠ TxFeeResponseType.Warning :=
  validateTxFee_erc20_noWarning "1" 1 1 "21000" "10" none

/-! ## JSON-RPC response validation (part_002, lines 353-474)

The `jsonschema` `Validator` is an external library; the fixed `RpcNode`
schema (lines 356-370) only ever checks the JSON *kind* of each listed
property (plus a maximum length for `message`), so JSON values are
modelled by their kind, with payloads kept only where the schema or
`formatErrors` reads them. -/

/-- Kind of a JSON value, as far as the fixed `RpcNode` schema inspects
it. `int` is a JS number that is an integer, `num` one that is not. -/
inductive JsonValue
  | str (s : String)
  | int (n : Int)
  | num
  | bool (b : Bool)
  | null
  | arr
  | obj
deriving DecidableEq, Repr

/-- The `error` property of a JSON-RPC response as `formatErrors` reads
it: `error.message` (a string) and the optional `error.data`. -/
structure RpcError where
  message : String
  data : Option String := none
deriving DecidableEq, Repr

/-- A JSON-RPC response object: the five properties constrained by the
`RpcNode` schema, each optional, plus the `error` property (an
additional property, unconstrained by the schema). -/
structure JsonRPCResponse where
  jsonrpc : Option JsonValue := none
  id : Option JsonValue := none
  result : Option JsonValue := none
  status : Option JsonValue := none
  message : Option JsonValue := none
  error : Option RpcError := none
deriving DecidableEq, Repr

/-- `isValidResult` (lines 372-374): JSON-Schema validation of the
response against `schema.RpcNode`. Per the schema, `jsonrpc` must be a
string, `id` a string or integer, `result` a string, array or object,
`status` a string, and `message` a string of length at most 2; absent
properties and additional properties are always accepted. -/
def isValidResult (response : JsonRPCResponse) : Bool :=
  (match response.jsonrpc with
    | none => true | some (.str _) => true | some _ => false) &&
  (match response.id with
    | none => true | some (.str _) => true | some (.int _) => true | some _ => false) &&
  (match response.result with
    | none => true | some (.str _) => true | some .arr => true | some .obj => true
    | some _ => false) &&
  (match response.status with
    | none => true | some (.str _) => true | some _ => false) &&
  (match response.message with
    | none => true | some (.str s) => decide (s.length ≤ 2) | some _ => false)

/-- `formatErrors` (lines 376-390): if the response has an error, split
its message on newlines; with more than two lines, keep only the part of
the first line after the last colon; otherwise return the message
followed by a space and the error data (empty when absent). -/
def formatErrors (response : JsonRPCResponse) (apiType : String) : String :=
  match response.error with
  | some err =>
      if (splitChar '\n' err.message.data).length > 2 then
        String.mk ((splitChar ':' ((splitChar '\n' err.message.data).headD [])).getLastD [])
      else
        err.message ++ " " ++ err.data.getD ""
  | none => "Invalid " ++ apiType ++ " Error"

/-- `isValidEthServiceResponse` (lines 410-421): returns the response
when it validates; otherwise invokes the fallback when one is given and
raises the formatted error when not. Raising is modelled by
`Except.error`. -/
def isValidEthServiceResponse (response : JsonRPCResponse) (apiName : String)
    (cb : Option (JsonRPCResponse → JsonRPCResponse)) :
    Except String JsonRPCResponse :=
  if isValidResult response then
    Except.ok response
  else
    match cb with
    | some f => Except.ok (f response)
    | none => Except.error (formatErrors response apiName)

/-- `isValidGetBalance` (line 423): no fallback. -/
def isValidGetBalance (response : JsonRPCResponse) : Except String JsonRPCResponse :=
  isValidEthServiceResponse response "Get Balance" none

/-- The fallback value `{ result: 'Failed' }` of `isValidTokenBalance`
(lines 433-435). -/
def tokenBalanceFallback : JsonRPCResponse :=
  { result := some (.str "Failed") }

/-- `isValidTokenBalance` (lines 432-435): validates with the constant
fallback `{ result: 'Failed' }`. -/
def isValidTokenBalance (response : JsonRPCResponse) : Except String JsonRPCResponse :=
  isValidEthServiceResponse response "Token Balance" (some fun _ => tokenBalanceFallback)

/-- Substring test on character lists: `pat` occurs contiguously in `l`. -/
def containsChars (l pat : List Char) : Bool :=
  match l with
  | [] => pat.isEmpty
  | _ :: rest => pat.isPrefixOf l || containsChars rest pat

/-- Substring test on strings. -/
def strContainsB (s pat : String) : Bool := containsChars s.data pat.data

/-! ### Helper lemmas about `splitChar` and `containsChars` -/

/-- `splitChar` never returns the empty list. -/
theorem splitChar_ne_nil (sep : Char) (l : List Char) : splitChar sep l ≠ [] := by
  cases l with
  | nil => simp [splitChar]
  | cons c cs =>
      unfold splitChar
      rcases h : splitChar sep cs with _ | ⟨hd, tl⟩
      · simp
      · by_cases hc : c = sep <;> simp [hc]

/-- The first segment produced by `splitChar` is an initial segment of
the input. -/
theorem splitChar_headD_eq_append (sep : Char) (l : List Char) :
    ∃ t, l = (splitChar sep l).headD [] ++ t := by
  induction l with
  | nil => exact ⟨[], rfl⟩
  | cons c cs ih =>
      unfold splitChar
      rcases h : splitChar sep cs with _ | ⟨hd, tl⟩
      · exact absurd h (splitChar_ne_nil sep cs)
      · rw [h] at ih
        obtain ⟨t, ht⟩ := ih
        simp only [List.headD_cons] at ht
        by_cases hc : c = sep
        · exact ⟨c :: cs, by simp [hc]⟩
        · exact ⟨t, by simp [hc, ht]⟩

/-- A list is a prefix of itself extended by anything, in the `Bool`
sense of `List.isPrefixOf`. -/
theorem isPrefixOf_append_self (p t : List Char) : p.isPrefixOf (p ++ t) = true := by
  induction p with
  | nil => cases t <;> rfl
  | cons c cs ih => simp [List.isPrefixOf, ih]

/-- `containsChars` holds whenever the pattern is an initial segment. -/
theorem containsChars_of_append (pat t : List Char) :
    containsChars (pat ++ t) pat = true := by
  cases h : pat ++ t with
  | nil =>
      have hp : pat = [] := by
        cases pat with
        | nil => rfl
        | cons a b => simp at h
      simp [containsChars, hp]
  | cons a b =>
      unfold containsChars
      rw [← h, isPrefixOf_append_self]
      simp

/-- String concatenation concatenates the underlying character lists. -/
theorem string_data_append (a b : String) : (a ++ b).data = a.data ++ b.data := rfl

/-! ### Claim theorems about RPC response validation -/

/-- A response whose `message` property is 3 characters long (above the
schema's maximum of 2), with a three-line error message whose first line
contains a colon. -/
def respThreeLines : JsonRPCResponse :=
  { message := some (JsonValue.str "abc"), error := some { message := "A: B\nc\nd" } }

/-- A response failing schema validation with a two-line error message. -/
def respTwoLines : JsonRPCResponse :=
  { message := some (JsonValue.str "abc"), error := some { message := "x\ny" } }

/-- A response failing schema validation with no error property. -/
def respNoError : JsonRPCResponse := { message := some (JsonValue.str "abcd") }

/-- C3 counterexample: a response failing schema validation (its
`message` property is 3 characters long, above the schema's maximum of
2) whose error message has three lines and a colon in the first line.
`isValidGetBalance` raises the message `" B"`, which does not contain
the first line `"A: B"` of the error message. -/
theorem rpc_firstLine_counterexample :
    isValidResult respThreeLines = false ∧
    respThreeLines.error = some { message := "A: B\nc\nd" } ∧
    isValidGetBalance respThreeLines = Except.error " B" ∧
    strContainsB " B" "A: B" = false :=
  ⟨by decide, rfl, rfl, by decide⟩

/-- C3 (amended): a response failing schema validation with an error
property makes a fallback-less validator raise the formatted error; when
the error message has at most two lines the raised message contains the
first line, and when it has more than two lines the raised message is
the final colon-separated segment of the first line. -/
theorem rpc_noFallback_error_amended (response : JsonRPCResponse) (apiName : String)
    (err : RpcError) (hinv : isValidResult response = false)
    (herr : response.error = some err) :
    isValidEthServiceResponse response apiName none =
      Except.error (formatErrors response apiName) ∧
    ((splitChar '\n' err.message.data).length > 2 →
      formatErrors response apiName =
        String.mk ((splitChar ':'
          ((splitChar '\n' err.message.data).headD [])).getLastD [])) ∧
    (¬ (splitChar '\n' err.message.data).length > 2 →
      strContainsB (formatErrors response apiName)
        (String.mk ((splitChar '\n' err.message.data).headD [])) = true) := by
  refine ⟨?_, ?_, ?_⟩
  · unfold isValidEthServiceResponse
    rw [hinv, if_neg Bool.false_ne_true]
  · intro h
    simp only [formatErrors, herr]
    rw [if_pos h]
  · intro h
    simp only [formatErrors, herr]
    rw [if_neg h]
    obtain ⟨t, ht⟩ := splitChar_headD_eq_append '\n' err.message.data
    unfold strContainsB
    set hd := (splitChar '\n' err.message.data).headD [] with hhd
    have hdata : (err.message ++ " " ++ err.data.getD "").data =
        hd ++ (t ++ (" ".data ++ (err.data.getD "").data)) := by
      rw [string_data_append, string_data_append, ht]
      simp
    rw [hdata]
    exact containsChars_of_append _ _

/-- Witness for the amended C3 at a concrete invalid response carrying a
two-line error message. -/
theorem rpc_noFallback_error_amended_witness :
    isValidEthServiceResponse respTwoLines "Get Balance" none =
      Except.error (formatErrors respTwoLines "Get Balance") ∧
    strContainsB (formatErrors respTwoLines "Get Balance") "x" = true :=
  ⟨(rpc_noFallback_error_amended respTwoLines "Get Balance" { message := "x\ny" }
      (by decide) rfl).1,
    (rpc_noFallback_error_amended respTwoLines "Get Balance" { message := "x\ny" }
      (by decide) rfl).2.2 (by decide)⟩

/-- C9: `isValidTokenBalance` never raises: it always returns an `ok`
result, and on a response failing schema validation it returns the
fallback `{ result: 'Failed' }` while the fallback-less validators such
as `isValidGetBalance` raise an error. -/
theorem isValidTokenBalance_fallback (response : JsonRPCResponse) :
    (∃ r, isValidTokenBalance response = Except.ok r) ∧
    (isValidResult response = false →
      isValidTokenBalance response = Except.ok tokenBalanceFallback ∧
      ∃ msg, isValidGetBalance response = Except.error msg) := by
  constructor
  · unfold isValidTokenBalance isValidEthServiceResponse
    by_cases h : isValidResult response = true
    · exact ⟨response, by rw [if_pos h]⟩
    · exact ⟨tokenBalanceFallback, by rw [if_neg h]⟩
  · intro hinv
    constructor
    · unfold isValidTokenBalance isValidEthServiceResponse
      rw [hinv, if_neg Bool.false_ne_true]
    · refine ⟨formatErrors response "Get Balance", ?_⟩
      unfold isValidGetBalance isValidEthServiceResponse
      rw [hinv, if_neg Bool.false_ne_true]

/-- Witness for C9 at a concrete schema-invalid response. -/
theorem isValidTokenBalance_fallback_witness :
    isValidTokenBalance respNoError = Except.ok tokenBalanceFallback ∧
    ∃ msg, isValidGetBalance respNoError = Except.error msg :=
  (isValidTokenBalance_fallback _).2 (by decide)

end MyCrypto
